import Mathlib

/-!
Verification of the VancedHelper prompt engine (`PromptManager`) and the
`troubleshoot` paging command, shallowly embedded from the TypeScript /
JavaScript sources.

The embedding models the single-threaded event-loop semantics of the source:
each `await`-point that receives user input is fed from an explicit script
(a list of `Option` events, `none` meaning the deadline elapsed), all transport
side effects (sending notices, sending/editing/deleting the UI message,
deleting the user's input message, adding reactions) are recorded in an
explicit effect trace, and the process-wide registry `PromptManager.prompts`
(a JS `Set<string>`) together with the session's lazily created UI message is
threaded as explicit state.
-/

/-- One decimal digit rendered as a character, mirroring base-10 rendering in
JavaScript's `Number.prototype.toString`.  Only arguments below 10 occur. -/
def digitChar : Nat → Char
  | 0 => '0'
  | 1 => '1'
  | 2 => '2'
  | 3 => '3'
  | 4 => '4'
  | 5 => '5'
  | 6 => '6'
  | 7 => '7'
  | 8 => '8'
  | 9 => '9'
  | _ => '*'

/-- Fuelled big-endian decimal digit expansion; `decChars (n+1) n` is the
decimal rendering of `n`.  The fuel argument only serves termination: any fuel
strictly above the argument yields the full expansion. -/
def decChars : Nat → Nat → List Char
  | 0, _ => []
  | f + 1, n => if n < 10 then [digitChar n] else decChars f (n / 10) ++ [digitChar (n % 10)]

/-- Decimal rendering of a natural number, the model of JavaScript's
`(i).toString()` as used by `chooseOne` and `troubleshoot`. -/
def natToDec (n : Nat) : String := ⟨decChars (n + 1) n⟩

/-- Parse a maximal leading run of decimal digits; `none` when the run is
empty (JavaScript `NaN`). -/
def parseDigits (l : List Char) : Option Nat :=
  if (l.takeWhile Char.isDigit).isEmpty then none
  else some ((l.takeWhile Char.isDigit).foldl (fun a c => a * 10 + (c.toNat - 48)) 0)

/-- A hexadecimal digit character, `0-9`, `a-f` or `A-F`. -/
def isHexDigitChar (c : Char) : Bool :=
  c.isDigit || decide ('a' ≤ c ∧ c ≤ 'f') || decide ('A' ≤ c ∧ c ≤ 'F')

/-- The numeric value of a hexadecimal digit character. -/
def hexVal (c : Char) : Nat :=
  if c.isDigit then c.toNat - 48
  else if decide ('a' ≤ c) then c.toNat - 87
  else c.toNat - 55

/-- Parse a maximal leading run of hexadecimal digits; `none` when the run
is empty (JavaScript `NaN`). -/
def parseHexDigits (l : List Char) : Option Nat :=
  if (l.takeWhile isHexDigitChar).isEmpty then none
  else some ((l.takeWhile isHexDigitChar).foldl (fun a c => a * 16 + hexVal c) 0)

/-- The radix selection of ECMA-262 `parseInt` with the radix argument
undefined: a leading `0x`/`0X` switches the parse to hexadecimal, otherwise
the maximal decimal digit run is parsed. -/
def parseRadix (l : List Char) : Option Nat :=
  match l with
  | c0 :: c1 :: rest =>
    if c0 = '0' ∧ (c1 = 'x' ∨ c1 = 'X') then parseHexDigits rest
    else parseDigits (c0 :: c1 :: rest)
  | _ => parseDigits l

/-- Model of JavaScript's `parseInt(s)` with no radix argument: skip leading
whitespace, accept an optional sign, honour a `0x`/`0X` hexadecimal prefix,
then parse the maximal leading digit run of the selected base, ignoring any
trailing garbage; `none` models `NaN`. -/
def jsParseInt (s : String) : Option Int :=
  match s.data.dropWhile Char.isWhitespace with
  | [] => none
  | c :: rest =>
    if c = '-' then (parseRadix rest).map (fun v => -(Int.ofNat v))
    else if c = '+' then (parseRadix rest).map Int.ofNat
    else (parseRadix (c :: rest)).map Int.ofNat

/-- Model of `'quit'.startsWith(content.toLowerCase())` from
`PromptManager.message`: the content, lowercased character-wise, is a
(possibly empty) prefix of the literal word `quit`. -/
def quitCheck (content : String) : Bool :=
  List.isPrefixOf (content.data.map Char.toLower) "quit".data

/-- Modelled from the spec: the repository's `String.prototype.substitute`
extension (whose source file is not under `src/`) replaces the literal
placeholder `\x7bVALUE\x7d` (an opening brace, the word VALUE, a closing
brace) in the template by the given value. -/
def substitute (template value : String) : String :=
  template.replace "\x7bVALUE\x7d" value

/-- Modelled from the spec: the repository's `String.prototype.toCodeblock`
extension (whose source file is not under `src/`) wraps the text in a
monospace-formatted (fenced) code block for the given language. -/
def toCodeblock (s lang : String) : String :=
  "```" ++ lang ++ "\n" ++ s ++ "```"

/-- The default invalid-choice error line built in `PromptManager.message`. -/
def defaultErr (v : String) : String :=
  "`" ++ v ++ "` is not a valid choice! Please try again."

/-- The error line of `PromptManager.message` line 78:
`error?.substitute(\x7b VALUE: input.content \x7d) || default`, including the
JavaScript falsiness of the empty string. -/
def errLine (error : Option String) (v : String) : String :=
  match error with
  | some e => let s := substitute e v; if s = "" then defaultErr v else s
  | none => defaultErr v

/-- The error line of `PromptManager.reaction` line 119:
`error || 'That is not a valid choice! Please try again.'`. -/
def reactionErrLine (error : Option String) : String :=
  match error with
  | some e => if e = "" then "That is not a valid choice! Please try again." else e
  | none => "That is not a valid choice! Please try again."

/-- The `options` parameter of `message`/`reaction`: `string[] | RegExp`.
A `RegExp` is abstracted by the boolean result of its `test` method. -/
inductive PromptOptions where
  | pattern (test : String → Bool)
  | list (l : List String)

/-- The validation of `PromptManager.message` lines 75 and 76:
a `RegExp` spec accepts iff `test` finds a match in the text, an array spec
accepts iff the array is empty or contains the text (case-sensitively). -/
def validates (options : PromptOptions) (content : String) : Bool :=
  match options with
  | .pattern p => p content
  | .list l => l.isEmpty || l.contains content

/-- A Discord emoji as consumed by `PromptManager.reaction`: an optional
custom-emoji identifier and a visible name. -/
structure Emoji where
  id : Option String
  name : String
deriving DecidableEq, Repr

/-- The value `input.emoji.id || input.emoji.name` from
`PromptManager.reaction` line 117 (a present but empty id is falsy). -/
def emojiIdentity (e : Emoji) : String :=
  match e.id with
  | some i => if i = "" then e.name else i
  | none => e.name

/-- The validation of `PromptManager.reaction` lines 116 and 117: a `RegExp`
spec is tested against `input.emoji.name`; an array spec is searched for
`input.emoji.id || input.emoji.name`. -/
def reactionCheck (options : PromptOptions) (e : Emoji) : Bool :=
  match options with
  | .pattern p => p e.name
  | .list l => l.isEmpty || l.contains (emojiIdentity e)

/-- An incoming text message from the prompted user: its text `content` and
whether the bot may delete it. -/
structure InMsg where
  content : String
  deletable : Bool
deriving DecidableEq, Repr

/-- The session's rendered question message (`this.msg`). -/
structure UIMsg where
  content : String
  deletable : Bool
deriving DecidableEq, Repr

/-- The mutable state a `PromptManager` call runs against: the process-wide
registry `PromptManager.prompts` of user ids with an open prompt, and the
session's lazily created question message `this.msg`. -/
structure SessionState where
  prompts : List String
  msg : Option UIMsg
deriving DecidableEq, Repr

/-- Observable transport side effects of a prompt run, in order. -/
inductive Effect where
  | notice (s : String)
  | uiSend (content : String)
  | uiEdit (content : String)
  | uiDelete
  | inputDelete
  | reactAdd (r : String)
deriving DecidableEq, Repr

/-- Whether an effect sends a fresh UI message. -/
def Effect.isUiSend : Effect → Bool
  | .uiSend _ => true
  | _ => false

/-- Membership test of the registry, `PromptManager.prompts.has(userId)`. -/
def regHas (l : List String) (u : String) : Bool := decide (u ∈ l)

namespace PromptManager

/-- `PromptManager.sendQuestion`: send the question as a new message if none
was created yet (recording its deletability `dbl` from the channel), else
edit the existing one in place (edit failures are swallowed by the source's
`catch`). -/
def sendQuestion (st : SessionState) (dbl : Bool) (question : String) :
    SessionState × List Effect :=
  match st.msg with
  | none => ({ st with msg := some ⟨question, dbl⟩ }, [Effect.uiSend question])
  | some m => ({ st with msg := some { m with content := question } }, [Effect.uiEdit question])

/-- `PromptManager.delete`: remove the user's registry entry and delete the
UI message when one exists and is deletable. -/
def delete (user : String) (st : SessionState) : SessionState × List Effect :=
  let st1 : SessionState := { st with prompts := st.prompts.erase user }
  match st.msg with
  | some m => if m.deletable then (st1, [Effect.uiDelete]) else (st1, [])
  | none => (st1, [])

/-- The timeout tail shared by `message` and `reaction` (lines 60 to 65 and
108 to 113): the unconditional registry release after the await, then
`this.delete()`, then the timeout notice. -/
def timeoutEnd (user : String) (st : SessionState) : SessionState × List Effect :=
  let stA : SessionState := { st with prompts := st.prompts.erase user }
  let r2 := delete user stA
  (r2.1, r2.2 ++ [Effect.notice "The prompt timed out!"])

/-- `PromptManager.message`, embedded over an explicit input script: each
element of `inputs` is the outcome of one `channel.awaitMessages` call
(`none` when the deadline elapses; an exhausted script also stands for a
deadline with no input).  Returns the resolved text (if any), the final
state, and the ordered effect trace. -/
def message (user : String) (dbl : Bool) (question : String) (options : PromptOptions)
    (error : Option String) :
    List (Option InMsg) → Bool → SessionState → Option String × SessionState × List Effect
  | inputs, initial, st =>
    if regHas st.prompts user then
      (none, st, [Effect.notice "You already have another prompt open!"])
    else
      let st1 : SessionState := { st with prompts := user :: st.prompts }
      let r1 := if initial then sendQuestion st1 dbl question else (st1, ([] : List Effect))
      match inputs with
      | [] =>
        let t := timeoutEnd user r1.1
        (none, t.1, r1.2 ++ t.2)
      | none :: _ =>
        let t := timeoutEnd user r1.1
        (none, t.1, r1.2 ++ t.2)
      | some inp :: rest =>
        let st2 : SessionState := { r1.1 with prompts := r1.1.prompts.erase user }
        let e2 : List Effect := r1.2 ++ (if inp.deletable then [Effect.inputDelete] else [])
        if quitCheck inp.content then
          (none, st2, e2 ++ [Effect.notice "Successfully cancelled the prompt!"])
        else if validates options inp.content then
          (some inp.content, st2, e2)
        else
          let r3 := sendQuestion st2 dbl (errLine error inp.content ++ "\n\n" ++ question)
          let r4 := message user dbl question options error rest false r3.1
          (r4.1, r4.2.1, e2 ++ r3.2 ++ r4.2.2)

/-- `PromptManager.reaction`, embedded over an explicit script of reaction
events on the UI message (`none` meaning the deadline elapsed). -/
def reaction (user : String) (dbl : Bool) (question : String) (options : PromptOptions)
    (react : Bool) (error : Option String) :
    List (Option Emoji) → Bool → SessionState → Option Emoji × SessionState × List Effect
  | inputs, initial, st =>
    if regHas st.prompts user then
      (none, st, [Effect.notice "You already have another prompt open!"])
    else
      let st1 : SessionState := { st with prompts := user :: st.prompts }
      let r1 := if initial then sendQuestion st1 dbl question else (st1, ([] : List Effect))
      let e1 : List Effect := r1.2 ++
        (if react then
          (match options with
           | PromptOptions.list l => l.map Effect.reactAdd
           | PromptOptions.pattern _ => [])
         else [])
      match inputs with
      | [] =>
        let t := timeoutEnd user r1.1
        (none, t.1, e1 ++ t.2)
      | none :: _ =>
        let t := timeoutEnd user r1.1
        (none, t.1, e1 ++ t.2)
      | some e :: rest =>
        let st2 : SessionState := { r1.1 with prompts := r1.1.prompts.erase user }
        if reactionCheck options e then
          (some e, st2, e1)
        else
          let r3 := sendQuestion st2 dbl (reactionErrLine error ++ "\n\n" ++ question)
          let r4 := reaction user dbl question options react error rest false r3.1
          (r4.1, r4.2.1, e1 ++ r3.2 ++ r4.2.2)

/-- The index lookup tail of `chooseOne`: `choices[parseInt(choice) - 1]`,
where a `NaN` or negative index reads as `undefined`. -/
def chooseIndex {T : Type} (choices : List T) (choice : String) : Option T :=
  match jsParseInt choice with
  | none => none
  | some n => if n ≤ 0 then none else choices.get? (n.toNat - 1)

/-- The fixed error template passed by `chooseOne`. -/
def chooseErr : String := "`\x7bVALUE\x7d` is not a valid option! Please try again."

/-- The result mapping of `chooseOne` lines 134 to 137: a falsy prompt
outcome (`no result` or the empty string) yields no result, otherwise the
option at `parseInt(choice) - 1` is read. -/
def chooseResult {T : Type} (choices : List T) (r : Option String) : Option T :=
  match r with
  | none => none
  | some c => if c = "" then none else chooseIndex choices c

/-- `PromptManager.chooseOne`: render the enumerated choice list, delegate to
`message` with the allow-list of 1-based index strings, and map an accepted
index string back to the original option value. -/
def chooseOne {T : Type} (toStr : T → String) (user : String) (dbl : Bool)
    (question : String) (choices : List T) (inputs : List (Option InMsg))
    (st : SessionState) : Option T × SessionState × List Effect :=
  let listing := String.intercalate "\n"
    (choices.enum.map (fun p => natToDec (p.1 + 1) ++ " | " ++ toStr p.2))
  let q := question ++ toCodeblock listing "css"
  let allow := choices.enum.map (fun p => natToDec (p.1 + 1))
  let r := message user dbl q (PromptOptions.list allow) (some chooseErr) inputs true st
  (chooseResult choices r.1, r.2.1, r.2.2)

end PromptManager

/-- The titles of the ten troubleshoot pages pushed in
`src/commands/troubleshoot.js`. -/
def troubleshootPages : List String :=
  ["Troubleshooting",
   "Notice for MiUI users!",
   "App Compatibility issue",
   "How to enable dark splashscreen?",
   "Disable 60fps playback",
   "What to do if I don't get any notifications?",
   "I changed the password of my Google account, now I can't use Vanced, help!",
   "Smartphones are turning back into dumbphones",
   "Home Ads",
   "My issue isn't listed here"]

/-- The initial page index of `troubleshoot` (lines 137 to 143): `0` when the
first argument does not `parseInt` to an integer in `1..pages.length`, else
that integer minus one; followed by the (dead) re-clamp of line 143. -/
def initialPage (args0 : Option String) : Nat :=
  let p := args0.bind jsParseInt
  let page : Int :=
    match p with
    | none => 0
    | some n => if n > (troubleshootPages.length : Int) ∨ n ≤ 0 then 0 else n - 1
  (if page > (troubleshootPages.length : Int) then 0 else page).toNat

/-- One transition of the troubleshoot reaction collector (lines 166 to 194),
switching on the reacted emoji's name. -/
def troubleshootStep (page : Nat) (emojiName : String) : Nat :=
  if emojiName = "⏪" then (if page = 0 then page else 0)
  else if emojiName = "⬅️" then (if page = 0 then page else page - 1)
  else if emojiName = "➡️" then (if page + 1 = troubleshootPages.length then page else page + 1)
  else if emojiName = "⏩" then
    (if page + 1 = troubleshootPages.length then page else troubleshootPages.length - 1)
  else page

open PromptManager

/-! ### Basic facts about decimal rendering and parsing -/

/-- Characters produced by `digitChar` on digits are decimal digits. -/
theorem digitChar_isDigit : ∀ d, d < 10 → Char.isDigit (digitChar d) = true := by decide

/-- Digit characters are not whitespace. -/
theorem digitChar_not_ws : ∀ d, d < 10 → Char.isWhitespace (digitChar d) = false := by decide

/-- Digit characters are not a minus sign. -/
theorem digitChar_ne_dash : ∀ d, d < 10 → digitChar d ≠ '-' := by decide

/-- Digit characters are not a plus sign. -/
theorem digitChar_ne_plus : ∀ d, d < 10 → digitChar d ≠ '+' := by decide

/-- Lowercasing a digit character never yields the letter q. -/
theorem digitChar_toLower_ne_q : ∀ d, d < 10 → (Char.toLower (digitChar d) == 'q') = false := by
  decide

/-- The numeric value recovered from a digit character. -/
theorem digitChar_val : ∀ d, d < 10 → (digitChar d).toNat - 48 = d := by decide

/-- Digit characters are not the hexadecimal marker `x`. -/
theorem digitChar_ne_x : ∀ d, d < 10 → digitChar d ≠ 'x' := by decide

/-- Digit characters are not the hexadecimal marker `X`. -/
theorem digitChar_ne_X : ∀ d, d < 10 → digitChar d ≠ 'X' := by decide

/-- A fuelled decimal expansion with positive fuel is never empty. -/
theorem decChars_ne_nil (f n : Nat) : decChars (f + 1) n ≠ [] := by
  simp only [decChars]
  split
  · simp
  · simp

/-- Every character of a decimal expansion is a digit character. -/
theorem decChars_mem (f : Nat) : ∀ n c, c ∈ decChars f n → ∃ d, d < 10 ∧ c = digitChar d := by
  induction f with
  | zero => intro n c hc; simp [decChars] at hc
  | succ f ih =>
    intro n c hc
    by_cases hn : n < 10
    · simp only [decChars, if_pos hn, List.mem_singleton] at hc
      exact ⟨n, hn, hc⟩
    · simp only [decChars, if_neg hn, List.mem_append, List.mem_singleton] at hc
      rcases hc with hc | hc
      · exact ih (n / 10) c hc
      · exact ⟨n % 10, Nat.mod_lt _ (by norm_num), hc⟩

/-- A decimal expansion with positive fuel starts with a digit character. -/
theorem decChars_head (f n : Nat) :
    ∃ d t, d < 10 ∧ decChars (f + 1) n = digitChar d :: t := by
  cases h : decChars (f + 1) n with
  | nil => exact absurd h (decChars_ne_nil f n)
  | cons c t =>
    have hc : c ∈ decChars (f + 1) n := by rw [h]; exact List.mem_cons_self c t
    obtain ⟨d, hd, hcd⟩ := decChars_mem (f + 1) n c hc
    subst hcd
    exact ⟨d, t, hd, rfl⟩

/-- Folding the base-10 accumulator over a complete decimal expansion
recovers the rendered number. -/
theorem foldl_decChars (f : Nat) : ∀ n a, n < f →
    List.foldl (fun a c => a * 10 + (c.toNat - 48)) a (decChars f n) =
      a * 10 ^ (decChars f n).length + n := by
  induction f with
  | zero => intro n a h; exact absurd h (Nat.not_lt_zero n)
  | succ f ih =>
    intro n a h
    by_cases hn : n < 10
    · simp only [decChars, if_pos hn, List.foldl_cons, List.foldl_nil, List.length_singleton,
        pow_one, digitChar_val n hn]
    · simp only [decChars, if_neg hn]
      have h10 : n / 10 < f := by
        have hlt : n / 10 < n := Nat.div_lt_self (by omega) (by norm_num)
        omega
      rw [List.foldl_append, ih (n / 10) a h10]
      simp only [List.foldl_cons, List.foldl_nil, List.length_append, List.length_singleton]
      rw [digitChar_val (n % 10) (Nat.mod_lt _ (by norm_num))]
      calc (a * 10 ^ (decChars f (n / 10)).length + n / 10) * 10 + n % 10
          = a * (10 ^ (decChars f (n / 10)).length * 10) + (10 * (n / 10) + n % 10) := by ring
        _ = a * 10 ^ ((decChars f (n / 10)).length + 1) + n := by
            rw [pow_succ, Nat.div_add_mod]

/-- A list of digit characters is fully consumed by `takeWhile isDigit`. -/
theorem takeWhile_digits {l : List Char} (h : ∀ c ∈ l, Char.isDigit c = true) :
    l.takeWhile Char.isDigit = l := by
  induction l with
  | nil => rfl
  | cons c t ih =>
    rw [List.takeWhile_cons, if_pos (h c (List.mem_cons_self c t)),
      ih (fun x hx => h x (List.mem_cons_of_mem c hx))]

/-- Parsing the digit run of a complete decimal expansion recovers the
rendered number. -/
theorem parseDigits_decChars (n : Nat) : parseDigits (decChars (n + 1) n) = some n := by
  have hdigits : ∀ c ∈ decChars (n + 1) n, Char.isDigit c = true := by
    intro c hc
    obtain ⟨d', hd', hcd⟩ := decChars_mem (n + 1) n c hc
    subst hcd
    exact digitChar_isDigit d' hd'
  obtain ⟨d, t, hd, hdt⟩ := decChars_head n n
  have hne : (decChars (n + 1) n).isEmpty = false := by rw [hdt]; rfl
  unfold parseDigits
  rw [takeWhile_digits hdigits, hne]
  simp only [Bool.false_eq_true, if_false]
  rw [foldl_decChars (n + 1) n 0 (Nat.lt_succ_self n)]
  simp

/-- On a complete decimal expansion the radix selection never takes the
hexadecimal branch: the second character, when present, is a decimal digit,
never `x` or `X`. -/
theorem parseRadix_decChars (n : Nat) :
    parseRadix (decChars (n + 1) n) = parseDigits (decChars (n + 1) n) := by
  obtain ⟨d, t, hd, hdt⟩ := decChars_head n n
  rw [hdt]
  cases t with
  | nil => rfl
  | cons c1 t' =>
    have hc1 : c1 ∈ decChars (n + 1) n := by
      rw [hdt]
      exact List.mem_cons_of_mem _ (List.mem_cons_self c1 t')
    obtain ⟨d1, hd1, rfl⟩ := decChars_mem (n + 1) n c1 hc1
    show (if digitChar d = '0' ∧ (digitChar d1 = 'x' ∨ digitChar d1 = 'X') then
        parseHexDigits t'
      else parseDigits (digitChar d :: digitChar d1 :: t'))
      = parseDigits (digitChar d :: digitChar d1 :: t')
    rw [if_neg ?_]
    rintro ⟨_, hx | hx⟩
    · exact digitChar_ne_x d1 hd1 hx
    · exact digitChar_ne_X d1 hd1 hx

/-- `parseInt` inverts the decimal rendering. -/
theorem jsParseInt_natToDec (n : Nat) : jsParseInt (natToDec n) = some (Int.ofNat n) := by
  obtain ⟨d, t, hd, hdt⟩ := decChars_head n n
  have hdata : (natToDec n).data = decChars (n + 1) n := rfl
  unfold jsParseInt
  rw [hdata, hdt, List.dropWhile_cons, digitChar_not_ws d hd]
  simp only [Bool.false_eq_true, if_false, if_neg (digitChar_ne_dash d hd),
    if_neg (digitChar_ne_plus d hd)]
  rw [← hdt, parseRadix_decChars n, parseDigits_decChars n]
  rfl

/-- The hexadecimal-prefix rule of `parseInt` is live in the model:
`parseInt("0x5")` is 5, so the troubleshoot argument `"0x5"` selects page
index 4, as the program does. -/
theorem jsParseInt_hex :
    jsParseInt "0x5" = some (5 : Int) ∧ initialPage (some "0x5") = 4 := ⟨rfl, rfl⟩

/-- A rendered decimal numeral is never a lowercased prefix of `quit`. -/
theorem quitCheck_natToDec (n : Nat) : quitCheck (natToDec n) = false := by
  obtain ⟨d, t, hd, hdt⟩ := decChars_head n n
  have hdata : (natToDec n).data = decChars (n + 1) n := rfl
  unfold quitCheck
  rw [hdata, hdt]
  simp only [List.map_cons]
  show List.isPrefixOf _ ('q' :: ['u', 'i', 't']) = false
  simp only [List.isPrefixOf, digitChar_toLower_ne_q d hd, Bool.false_and]

/-! ### Small facts about the session primitives -/

/-- The registry content is a proposition-level membership. -/
theorem regHas_eq_false {l : List String} {u : String} : regHas l u = false ↔ u ∉ l := by
  simp [regHas]

/-- `sendQuestion` never touches the registry. -/
theorem sendQuestion_prompts (st : SessionState) (dbl : Bool) (q : String) :
    (sendQuestion st dbl q).1.prompts = st.prompts := by
  cases h : st.msg <;> simp [sendQuestion, h]

/-- After `sendQuestion` a UI message always exists. -/
theorem sendQuestion_isSome (st : SessionState) (dbl : Bool) (q : String) :
    (sendQuestion st dbl q).1.msg.isSome = true := by
  cases h : st.msg <;> simp [sendQuestion, h]

/-- `sendQuestion` edits in place whenever a UI message already exists. -/
theorem sendQuestion_edit {st : SessionState} (dbl : Bool) (q : String) {m : UIMsg}
    (h : st.msg = some m) : (sendQuestion st dbl q).2 = [Effect.uiEdit q] := by
  simp [sendQuestion, h]

/-- `sendQuestion` sends at most one fresh UI message. -/
theorem sendQuestion_countP_le (st : SessionState) (dbl : Bool) (q : String) :
    List.countP Effect.isUiSend (sendQuestion st dbl q).2 ≤ 1 := by
  cases h : st.msg <;> simp [sendQuestion, h, List.countP_cons, Effect.isUiSend]

/-- `sendQuestion` sends no fresh UI message when one already exists. -/
theorem sendQuestion_countP_zero {st : SessionState} (dbl : Bool) (q : String)
    (h : st.msg.isSome = true) :
    List.countP Effect.isUiSend (sendQuestion st dbl q).2 = 0 := by
  obtain ⟨m, hm⟩ := Option.isSome_iff_exists.mp h
  simp [sendQuestion, hm, List.countP_cons, Effect.isUiSend]

/-- `sendQuestion` never deletes the UI message. -/
theorem sendQuestion_no_uiDelete (st : SessionState) (dbl : Bool) (q : String) :
    Effect.uiDelete ∉ (sendQuestion st dbl q).2 := by
  cases h : st.msg <;> simp [sendQuestion, h]

/-- `delete` removes the registry entry. -/
theorem delete_prompts (user : String) (st : SessionState) :
    (delete user st).1.prompts = st.prompts.erase user := by
  cases h : st.msg with
  | none => simp [delete, h]
  | some m => by_cases hd : m.deletable <;> simp [delete, h, hd]

/-- The state left by the shared timeout tail. -/
theorem timeoutEnd_prompts (user : String) (st : SessionState) :
    (timeoutEnd user st).1.prompts = (st.prompts.erase user).erase user := by
  simp [timeoutEnd, delete_prompts]

/-- The timeout tail sends no fresh UI message. -/
theorem timeoutEnd_countP (user : String) (st : SessionState) :
    List.countP Effect.isUiSend (timeoutEnd user st).2 = 0 := by
  cases h : st.msg with
  | none => simp [timeoutEnd, delete, h, List.countP_cons, Effect.isUiSend]
  | some m =>
    by_cases hd : m.deletable <;>
      simp [timeoutEnd, delete, h, hd, List.countP_cons, Effect.isUiSend]

/-- Rendering guarded by `initial` never touches the registry. -/
theorem render_prompts (st : SessionState) (dbl : Bool) (q : String) (initial : Bool) :
    ((if initial then sendQuestion st dbl q else (st, ([] : List Effect))).1).prompts
      = st.prompts := by
  cases initial <;> simp [sendQuestion_prompts]

/-- Rendering guarded by `initial` preserves an existing UI message. -/
theorem render_isSome {st : SessionState} (dbl : Bool) (q : String) (initial : Bool)
    (h : st.msg.isSome = true) :
    ((if initial then sendQuestion st dbl q else (st, ([] : List Effect))).1).msg.isSome
      = true := by
  cases initial <;> simp [sendQuestion_isSome, h]

/-! ### Structural lemmas about `message` -/

/-- Unfolding equation of `message` on an exhausted input script. -/
theorem message_nil (user : String) (dbl : Bool) (question : String)
    (options : PromptOptions) (error : Option String) (initial : Bool) (st : SessionState) :
    message user dbl question options error [] initial st =
      if regHas st.prompts user then
        (none, st, [Effect.notice "You already have another prompt open!"])
      else
        let st1 : SessionState := { st with prompts := user :: st.prompts }
        let r1 := if initial then sendQuestion st1 dbl question else (st1, ([] : List Effect))
        let t := timeoutEnd user r1.1
        (none, t.1, r1.2 ++ t.2) := rfl

/-- Unfolding equation of `message` on an elapsed deadline. -/
theorem message_cons_none (user : String) (dbl : Bool) (question : String)
    (options : PromptOptions) (error : Option String) (rest : List (Option InMsg))
    (initial : Bool) (st : SessionState) :
    message user dbl question options error (none :: rest) initial st =
      if regHas st.prompts user then
        (none, st, [Effect.notice "You already have another prompt open!"])
      else
        let st1 : SessionState := { st with prompts := user :: st.prompts }
        let r1 := if initial then sendQuestion st1 dbl question else (st1, ([] : List Effect))
        let t := timeoutEnd user r1.1
        (none, t.1, r1.2 ++ t.2) := rfl

/-- Unfolding equation of `message` on a received input. -/
theorem message_cons_some (user : String) (dbl : Bool) (question : String)
    (options : PromptOptions) (error : Option String) (inp : InMsg)
    (rest : List (Option InMsg)) (initial : Bool) (st : SessionState) :
    message user dbl question options error (some inp :: rest) initial st =
      if regHas st.prompts user then
        (none, st, [Effect.notice "You already have another prompt open!"])
      else
        let st1 : SessionState := { st with prompts := user :: st.prompts }
        let r1 := if initial then sendQuestion st1 dbl question else (st1, ([] : List Effect))
        let st2 : SessionState := { r1.1 with prompts := r1.1.prompts.erase user }
        let e2 : List Effect := r1.2 ++ (if inp.deletable then [Effect.inputDelete] else [])
        if quitCheck inp.content then
          (none, st2, e2 ++ [Effect.notice "Successfully cancelled the prompt!"])
        else if validates options inp.content then
          (some inp.content, st2, e2)
        else
          let r3 := sendQuestion st2 dbl (errLine error inp.content ++ "\n\n" ++ question)
          let r4 := message user dbl question options error rest false r3.1
          (r4.1, r4.2.1, e2 ++ r3.2 ++ r4.2.2) := rfl

/-- A second prompt for a registered user is refused without any state
change (`message`, lines 51 to 53). -/
theorem message_guard {user : String} {st : SessionState} (dbl : Bool) (question : String)
    (options : PromptOptions) (error : Option String) (inputs : List (Option InMsg))
    (initial : Bool) (hreg : regHas st.prompts user = true) :
    message user dbl question options error inputs initial st
      = (none, st, [Effect.notice "You already have another prompt open!"]) := by
  cases inputs with
  | nil => rw [message_nil, if_pos hreg]
  | cons o rest =>
    cases o with
    | none => rw [message_cons_none, if_pos hreg]
    | some inp => rw [message_cons_some, if_pos hreg]

/-- Every run of `message` starting without a registry entry for the user
ends without one. -/
theorem message_prompts_released (user : String) (dbl : Bool) (question : String)
    (options : PromptOptions) (error : Option String) :
    ∀ (inputs : List (Option InMsg)) (initial : Bool) (st : SessionState),
      regHas st.prompts user = false →
      regHas (message user dbl question options error inputs initial st).2.1.prompts user
        = false := by
  intro inputs
  induction inputs with
  | nil =>
    intro initial st h
    have hmem : user ∉ st.prompts := regHas_eq_false.mp h
    rw [message_nil, if_neg (by rw [h]; exact Bool.false_ne_true)]
    simp only
    rw [timeoutEnd_prompts, render_prompts]
    rw [List.erase_cons_head, List.erase_of_not_mem hmem]
    exact h
  | cons o rest ih =>
    intro initial st h
    have hmem : user ∉ st.prompts := regHas_eq_false.mp h
    cases o with
    | none =>
      rw [message_cons_none, if_neg (by rw [h]; exact Bool.false_ne_true)]
      simp only
      rw [timeoutEnd_prompts, render_prompts]
      rw [List.erase_cons_head, List.erase_of_not_mem hmem]
      exact h
    | some inp =>
      rw [message_cons_some, if_neg (by rw [h]; exact Bool.false_ne_true)]
      simp only
      by_cases hq : quitCheck inp.content = true
      · simp only [hq, if_true]
        rw [render_prompts, List.erase_cons_head]
        exact h
      · rw [if_neg hq]
        by_cases hv : validates options inp.content = true
        · simp only [hv, if_true]
          rw [render_prompts, List.erase_cons_head]
          exact h
        · simp only [hv, Bool.false_eq_true, if_false]
          apply ih
          rw [sendQuestion_prompts, render_prompts, List.erase_cons_head]
          exact h

/-- Counting helper: the optional input-message deletion effect sends
nothing. -/
theorem del_countP (b : Bool) :
    List.countP Effect.isUiSend (if b then [Effect.inputDelete] else []) = 0 := by
  cases b <;> simp [List.countP_cons, Effect.isUiSend]

/-- Counting helper for the rendering step guarded by `initial`. -/
theorem render_countP_le (st : SessionState) (dbl : Bool) (q : String) (initial : Bool) :
    List.countP Effect.isUiSend
      ((if initial then sendQuestion st dbl q else (st, ([] : List Effect))).2) ≤ 1 := by
  cases initial
  · simp
  · simpa using sendQuestion_countP_le st dbl q

/-- The rendering step sends nothing when a UI message already exists. -/
theorem render_countP_zero {st : SessionState} (dbl : Bool) (q : String) (initial : Bool)
    (h : st.msg.isSome = true) :
    List.countP Effect.isUiSend
      ((if initial then sendQuestion st dbl q else (st, ([] : List Effect))).2) = 0 := by
  cases initial
  · simp
  · simpa using sendQuestion_countP_zero dbl q h

/-- The rendering step never deletes the UI message. -/
theorem render_no_uiDelete (st : SessionState) (dbl : Bool) (q : String) (initial : Bool) :
    Effect.uiDelete ∉ ((if initial then sendQuestion st dbl q else (st, ([] : List Effect))).2) := by
  cases initial
  · simp
  · simpa using sendQuestion_no_uiDelete st dbl q

/-- Any value resolved by `message` was accepted by the validation of
lines 75 and 76. -/
theorem message_validated (user : String) (dbl : Bool) (question : String)
    (options : PromptOptions) (error : Option String) :
    ∀ (inputs : List (Option InMsg)) (initial : Bool) (st : SessionState) (t : String),
      (message user dbl question options error inputs initial st).1 = some t →
      validates options t = true := by
  intro inputs
  induction inputs with
  | nil =>
    intro initial st t h
    rw [message_nil] at h
    by_cases hreg : regHas st.prompts user = true
    · rw [if_pos hreg] at h; simp at h
    · rw [if_neg hreg] at h; simp at h
  | cons o rest ih =>
    intro initial st t h
    cases o with
    | none =>
      rw [message_cons_none] at h
      by_cases hreg : regHas st.prompts user = true
      · rw [if_pos hreg] at h; simp at h
      · rw [if_neg hreg] at h; simp at h
    | some inp =>
      rw [message_cons_some] at h
      by_cases hreg : regHas st.prompts user = true
      · rw [if_pos hreg] at h; simp at h
      · rw [if_neg hreg] at h
        simp only at h
        by_cases hq : quitCheck inp.content = true
        · rw [if_pos hq] at h; simp at h
        · rw [if_neg hq] at h
          by_cases hv : validates options inp.content = true
          · rw [if_pos hv] at h
            simp only at h
            obtain rfl : inp.content = t := Option.some_injective _ h
            exact hv
          · rw [if_neg hv] at h
            simp only at h
            exact ih false _ t h

/-- A run of `message` against a session that already rendered its UI
message never sends a fresh one. -/
theorem message_countP_zero (user : String) (dbl : Bool) (question : String)
    (options : PromptOptions) (error : Option String) :
    ∀ (inputs : List (Option InMsg)) (initial : Bool) (st : SessionState),
      st.msg.isSome = true →
      List.countP Effect.isUiSend
        (message user dbl question options error inputs initial st).2.2 = 0 := by
  intro inputs
  induction inputs with
  | nil =>
    intro initial st h
    obtain ⟨m, hm⟩ := Option.isSome_iff_exists.mp h
    rw [message_nil]
    by_cases hreg : regHas st.prompts user = true
    · rw [if_pos hreg]; simp [List.countP_cons, Effect.isUiSend]
    · rw [if_neg hreg]
      simp only
      rw [List.countP_append, timeoutEnd_countP]
      cases initial <;>
        simp [sendQuestion, hm, List.countP_cons, Effect.isUiSend]
  | cons o rest ih =>
    intro initial st h
    obtain ⟨m, hm⟩ := Option.isSome_iff_exists.mp h
    cases o with
    | none =>
      rw [message_cons_none]
      by_cases hreg : regHas st.prompts user = true
      · rw [if_pos hreg]; simp [List.countP_cons, Effect.isUiSend]
      · rw [if_neg hreg]
        simp only
        rw [List.countP_append, timeoutEnd_countP]
        cases initial <;>
          simp [sendQuestion, hm, List.countP_cons, Effect.isUiSend]
    | some inp =>
      rw [message_cons_some]
      by_cases hreg : regHas st.prompts user = true
      · rw [if_pos hreg]; simp [List.countP_cons, Effect.isUiSend]
      · rw [if_neg hreg]
        simp only
        by_cases hq : quitCheck inp.content = true
        · rw [if_pos hq]
          cases initial <;> cases hd : inp.deletable <;>
            simp [sendQuestion, hm, hd, List.countP_append, List.countP_cons, Effect.isUiSend]
        · rw [if_neg hq]
          by_cases hv : validates options inp.content = true
          · rw [if_pos hv]
            cases initial <;> cases hd : inp.deletable <;>
              simp [sendQuestion, hm, hd, List.countP_append, List.countP_cons, Effect.isUiSend]
          · rw [if_neg hv]
            cases initial <;> cases hd : inp.deletable <;>
              simp only [Bool.false_eq_true, if_false, if_true, sendQuestion, hm, hd,
                List.countP_append, List.countP_cons, List.countP_nil, Effect.isUiSend] <;>
              simp only [Nat.add_zero, Nat.zero_add] <;>
              exact ih false _ rfl

/-- Any run of `message` sends at most one fresh UI message: the question is
created once and afterwards only edited. -/
theorem message_countP_le (user : String) (dbl : Bool) (question : String)
    (options : PromptOptions) (error : Option String) :
    ∀ (inputs : List (Option InMsg)) (initial : Bool) (st : SessionState),
      List.countP Effect.isUiSend
        (message user dbl question options error inputs initial st).2.2 ≤ 1 := by
  intro inputs
  induction inputs with
  | nil =>
    intro initial st
    by_cases hsome : st.msg.isSome = true
    · rw [message_countP_zero user dbl question options error [] initial st hsome]
      exact Nat.zero_le 1
    · have hm : st.msg = none := Option.not_isSome_iff_eq_none.mp hsome
      rw [message_nil]
      by_cases hreg : regHas st.prompts user = true
      · rw [if_pos hreg]; simp [List.countP_cons, Effect.isUiSend]
      · rw [if_neg hreg]
        simp only
        rw [List.countP_append, timeoutEnd_countP]
        cases initial <;>
          simp [sendQuestion, hm, List.countP_cons, Effect.isUiSend]
  | cons o rest ih =>
    intro initial st
    by_cases hsome : st.msg.isSome = true
    · rw [message_countP_zero user dbl question options error (o :: rest) initial st hsome]
      exact Nat.zero_le 1
    · have hm : st.msg = none := Option.not_isSome_iff_eq_none.mp hsome
      cases o with
      | none =>
        rw [message_cons_none]
        by_cases hreg : regHas st.prompts user = true
        · rw [if_pos hreg]; simp [List.countP_cons, Effect.isUiSend]
        · rw [if_neg hreg]
          simp only
          rw [List.countP_append, timeoutEnd_countP]
          cases initial <;>
            simp [sendQuestion, hm, List.countP_cons, Effect.isUiSend]
      | some inp =>
        rw [message_cons_some]
        by_cases hreg : regHas st.prompts user = true
        · rw [if_pos hreg]; simp [List.countP_cons, Effect.isUiSend]
        · rw [if_neg hreg]
          simp only
          by_cases hq : quitCheck inp.content = true
          · rw [if_pos hq]
            cases initial <;> cases hd : inp.deletable <;>
              simp [sendQuestion, hm, hd, List.countP_append, List.countP_cons, Effect.isUiSend]
          · rw [if_neg hq]
            by_cases hv : validates options inp.content = true
            · rw [if_pos hv]
              cases initial <;> cases hd : inp.deletable <;>
                simp [sendQuestion, hm, hd, List.countP_append, List.countP_cons,
                  Effect.isUiSend]
            · rw [if_neg hv]
              cases initial <;> cases hd : inp.deletable <;>
                simp [sendQuestion, hm, hd, List.countP_append, List.countP_cons,
                  Effect.isUiSend,
                  message_countP_zero user dbl question options error rest]

/-- A run of `message` that resolves with a value never deleted the UI
message: only the timeout path calls `this.delete()`. -/
theorem message_some_no_uiDelete (user : String) (dbl : Bool) (question : String)
    (options : PromptOptions) (error : Option String) :
    ∀ (inputs : List (Option InMsg)) (initial : Bool) (st : SessionState) (t : String),
      (message user dbl question options error inputs initial st).1 = some t →
      Effect.uiDelete ∉ (message user dbl question options error inputs initial st).2.2 := by
  intro inputs
  induction inputs with
  | nil =>
    intro initial st t h
    rw [message_nil] at h
    by_cases hreg : regHas st.prompts user = true
    · rw [if_pos hreg] at h; simp at h
    · rw [if_neg hreg] at h; simp at h
  | cons o rest ih =>
    intro initial st t h
    cases o with
    | none =>
      rw [message_cons_none] at h
      by_cases hreg : regHas st.prompts user = true
      · rw [if_pos hreg] at h; simp at h
      · rw [if_neg hreg] at h; simp at h
    | some inp =>
      rw [message_cons_some] at h ⊢
      by_cases hreg : regHas st.prompts user = true
      · rw [if_pos hreg] at h; simp at h
      · rw [if_neg hreg] at h ⊢
        simp only at h ⊢
        by_cases hq : quitCheck inp.content = true
        · rw [if_pos hq] at h; simp at h
        · rw [if_neg hq] at h ⊢
          by_cases hv : validates options inp.content = true
          · rw [if_pos hv] at h ⊢
            simp only at h ⊢
            intro hmem
            rw [List.mem_append] at hmem
            rcases hmem with hmem | hmem
            · exact render_no_uiDelete _ dbl question initial hmem
            · cases hd : inp.deletable <;> rw [hd] at hmem <;> simp at hmem
          · rw [if_neg hv] at h ⊢
            simp only at h ⊢
            intro hmem
            rw [List.mem_append, List.mem_append] at hmem
            rcases hmem with (hmem | hmem) | hmem
            · rw [List.mem_append] at hmem
              rcases hmem with hmem | hmem
              · exact render_no_uiDelete _ dbl question initial hmem
              · cases hd : inp.deletable <;> rw [hd] at hmem <;> simp at hmem
            · exact sendQuestion_no_uiDelete _ dbl _ hmem
            · exact ih false _ t h hmem

/-! ### Structural lemmas about `reaction` -/

/-- Unfolding equation of `reaction` on an exhausted script. -/
theorem reaction_nil (user : String) (dbl : Bool) (question : String)
    (options : PromptOptions) (react : Bool) (error : Option String) (initial : Bool)
    (st : SessionState) :
    reaction user dbl question options react error [] initial st =
      if regHas st.prompts user then
        (none, st, [Effect.notice "You already have another prompt open!"])
      else
        let st1 : SessionState := { st with prompts := user :: st.prompts }
        let r1 := if initial then sendQuestion st1 dbl question else (st1, ([] : List Effect))
        let e1 : List Effect := r1.2 ++
          (if react then
            (match options with
             | PromptOptions.list l => l.map Effect.reactAdd
             | PromptOptions.pattern _ => [])
           else [])
        let t := timeoutEnd user r1.1
        (none, t.1, e1 ++ t.2) := rfl

/-- Unfolding equation of `reaction` on an elapsed deadline. -/
theorem reaction_cons_none (user : String) (dbl : Bool) (question : String)
    (options : PromptOptions) (react : Bool) (error : Option String)
    (rest : List (Option Emoji)) (initial : Bool) (st : SessionState) :
    reaction user dbl question options react error (none :: rest) initial st =
      if regHas st.prompts user then
        (none, st, [Effect.notice "You already have another prompt open!"])
      else
        let st1 : SessionState := { st with prompts := user :: st.prompts }
        let r1 := if initial then sendQuestion st1 dbl question else (st1, ([] : List Effect))
        let e1 : List Effect := r1.2 ++
          (if react then
            (match options with
             | PromptOptions.list l => l.map Effect.reactAdd
             | PromptOptions.pattern _ => [])
           else [])
        let t := timeoutEnd user r1.1
        (none, t.1, e1 ++ t.2) := rfl

/-- Unfolding equation of `reaction` on a received reaction. -/
theorem reaction_cons_some (user : String) (dbl : Bool) (question : String)
    (options : PromptOptions) (react : Bool) (error : Option String) (e : Emoji)
    (rest : List (Option Emoji)) (initial : Bool) (st : SessionState) :
    reaction user dbl question options react error (some e :: rest) initial st =
      if regHas st.prompts user then
        (none, st, [Effect.notice "You already have another prompt open!"])
      else
        let st1 : SessionState := { st with prompts := user :: st.prompts }
        let r1 := if initial then sendQuestion st1 dbl question else (st1, ([] : List Effect))
        let e1 : List Effect := r1.2 ++
          (if react then
            (match options with
             | PromptOptions.list l => l.map Effect.reactAdd
             | PromptOptions.pattern _ => [])
           else [])
        let st2 : SessionState := { r1.1 with prompts := r1.1.prompts.erase user }
        if reactionCheck options e then
          (some e, st2, e1)
        else
          let r3 := sendQuestion st2 dbl (reactionErrLine error ++ "\n\n" ++ question)
          let r4 := reaction user dbl question options react error rest false r3.1
          (r4.1, r4.2.1, e1 ++ r3.2 ++ r4.2.2) := rfl

/-! ### Spec-side characterizations of the validators -/

/-- The `message` validation, spelled as the spec describes it. -/
theorem validates_iff (options : PromptOptions) (t : String) :
    validates options t = true ↔
      ((∃ p, options = PromptOptions.pattern p ∧ p t = true) ∨
       (∃ l, options = PromptOptions.list l ∧ (l = [] ∨ t ∈ l))) := by
  cases options with
  | pattern p =>
    constructor
    · intro h
      exact Or.inl ⟨p, rfl, h⟩
    · rintro (⟨p', hp, hh⟩ | ⟨l, hl, hh⟩)
      · cases hp; exact hh
      · cases hl
  | list l =>
    constructor
    · intro h
      refine Or.inr ⟨l, rfl, ?_⟩
      rcases Bool.or_eq_true_iff.mp h with h | h
      · exact Or.inl (List.isEmpty_iff.mp h)
      · exact Or.inr (by simpa using h)
    · rintro (⟨p', hp, hh⟩ | ⟨l', hl, hh⟩)
      · cases hp
      · cases hl
        rcases hh with hh | hh
        · subst hh; rfl
        · simp [validates, hh]

/-- The `reaction` validation, spelled out: patterns test the emoji name,
allow-lists test the custom id falling back to the name. -/
theorem reactionCheck_iff (options : PromptOptions) (e : Emoji) :
    reactionCheck options e = true ↔
      ((∃ p, options = PromptOptions.pattern p ∧ p e.name = true) ∨
       (∃ l, options = PromptOptions.list l ∧ (l = [] ∨ emojiIdentity e ∈ l))) := by
  cases options with
  | pattern p =>
    constructor
    · intro h
      exact Or.inl ⟨p, rfl, h⟩
    · rintro (⟨p', hp, hh⟩ | ⟨l, hl, hh⟩)
      · cases hp; exact hh
      · cases hl
  | list l =>
    constructor
    · intro h
      refine Or.inr ⟨l, rfl, ?_⟩
      rcases Bool.or_eq_true_iff.mp h with h | h
      · exact Or.inl (List.isEmpty_iff.mp h)
      · exact Or.inr (by simpa using h)
    · rintro (⟨p', hp, hh⟩ | ⟨l', hl, hh⟩)
      · cases hp
      · cases hl
        rcases hh with hh | hh
        · subst hh; rfl
        · simp [reactionCheck, hh]

/-! ### Helpers for `chooseOne` -/

/-- A rendered decimal numeral is never the empty string. -/
theorem natToDec_ne_empty (n : Nat) : natToDec n ≠ "" := by
  obtain ⟨d, t, hd, hdt⟩ := decChars_head n n
  intro h
  have hdata : decChars (n + 1) n = [] := congrArg String.data h
  rw [hdt] at hdata
  exact List.noConfusion hdata

/-- The allow-list `chooseOne` builds is the list of 1-based index strings. -/
theorem chooseAllow_eq {T : Type} (choices : List T) :
    choices.enum.map (fun p => natToDec (p.1 + 1))
      = (List.range choices.length).map (fun j => natToDec (j + 1)) := by
  rw [← List.enum_map_fst choices, List.map_map]
  rfl

/-- Every in-range 1-based index string is in `chooseOne`'s allow-list. -/
theorem natToDec_mem_allow {T : Type} (choices : List T) (i : Nat) (h1 : 1 ≤ i)
    (h2 : i ≤ choices.length) :
    natToDec i ∈ choices.enum.map (fun p => natToDec (p.1 + 1)) := by
  rw [chooseAllow_eq]
  refine List.mem_map.mpr ⟨i - 1, List.mem_range.mpr (by omega), ?_⟩
  congr 1
  omega

/-- Every member of `chooseOne`'s allow-list is an in-range 1-based index
string. -/
theorem mem_allow_exists {T : Type} (choices : List T) (c : String)
    (h : c ∈ choices.enum.map (fun p => natToDec (p.1 + 1))) :
    ∃ j, j < choices.length ∧ c = natToDec (j + 1) := by
  rw [chooseAllow_eq] at h
  obtain ⟨j, hj, hc⟩ := List.mem_map.mp h
  exact ⟨j, List.mem_range.mp hj, hc.symm⟩

/-- The index lookup on a rendered positive index string. -/
theorem chooseIndex_natToDec {T : Type} (choices : List T) (i : Nat) (hi : 1 ≤ i) :
    chooseIndex choices (natToDec i) = choices.get? (i - 1) := by
  unfold chooseIndex
  rw [jsParseInt_natToDec]
  have h0 : ¬((Int.ofNat i : Int) ≤ 0) := by
    simp only [Int.ofNat_eq_coe]
    omega
  simp only [if_neg h0]
  congr 1

/-- The cancellation run shared by the quit-prefix and empty-input claims. -/
theorem message_quit_run (user : String) (dbl : Bool) (question : String)
    (options : PromptOptions) (error : Option String) (m : InMsg)
    (rest : List (Option InMsg)) (initial : Bool) (st : SessionState)
    (hreg : regHas st.prompts user = false) (hq : quitCheck m.content = true) :
    (message user dbl question options error (some m :: rest) initial st).1 = none ∧
    Effect.notice "Successfully cancelled the prompt!"
      ∈ (message user dbl question options error (some m :: rest) initial st).2.2 := by
  rw [message_cons_some, if_neg (by rw [hreg]; exact Bool.false_ne_true)]
  simp only
  rw [if_pos hq]
  refine ⟨rfl, ?_⟩
  simp [List.mem_append]

/-- The guard of `reaction` (lines 98 to 100) refuses a second prompt
unchanged. -/
theorem reaction_guard {user : String} {st : SessionState} (dbl : Bool) (question : String)
    (options : PromptOptions) (react : Bool) (error : Option String)
    (inputs : List (Option Emoji)) (initial : Bool) (hreg : regHas st.prompts user = true) :
    reaction user dbl question options react error inputs initial st
      = (none, st, [Effect.notice "You already have another prompt open!"]) := by
  cases inputs with
  | nil => rw [reaction_nil, if_pos hreg]
  | cons o rest =>
    cases o with
    | none => rw [reaction_cons_none, if_pos hreg]
    | some e => rw [reaction_cons_some, if_pos hreg]

/-! ### The claims -/

/-- C1: for every user at most one prompt is registered at any instant: when
a prompt is already open for the user, any further `message` or `reaction`
call sends the notice `"You already have another prompt open!"`, returns no
result, and leaves the registry and the session state untouched. -/
theorem second_prompt_blocked (user : String) (dbl : Bool) (question : String)
    (options roptions : PromptOptions) (error rerror : Option String) (react : Bool)
    (inputs : List (Option InMsg)) (rinputs : List (Option Emoji))
    (initial rinitial : Bool) (st : SessionState)
    (hreg : regHas st.prompts user = true) :
    message user dbl question options error inputs initial st
        = (none, st, [Effect.notice "You already have another prompt open!"]) ∧
    reaction user dbl question roptions react rerror rinputs rinitial st
        = (none, st, [Effect.notice "You already have another prompt open!"]) :=
  ⟨message_guard dbl question options error inputs initial hreg,
   reaction_guard dbl question roptions react rerror rinputs rinitial hreg⟩

/-- Witness for C1 at a concrete registered user. -/
theorem second_prompt_blocked_w :
    message "u" true "ask" (PromptOptions.list []) none [some ⟨"hi", true⟩] true
        ⟨["u"], none⟩
      = (none, ⟨["u"], none⟩, [Effect.notice "You already have another prompt open!"]) ∧
    reaction "u" true "ask" (PromptOptions.list []) false none [] true ⟨["u"], none⟩
      = (none, ⟨["u"], none⟩, [Effect.notice "You already have another prompt open!"]) :=
  second_prompt_blocked "u" true "ask" (PromptOptions.list []) (PromptOptions.list [])
    none none false [some ⟨"hi", true⟩] [] true true ⟨["u"], none⟩ (by decide)

/-- C3: any received input whose text is, case-insensitively, a non-empty
prefix of the word `quit` cancels an active `message` prompt with the notice
`"Successfully cancelled the prompt!"` and no result, whatever the configured
validation spec — the check precedes validation. -/
theorem quit_prefix_cancels (user : String) (dbl : Bool) (question : String)
    (options : PromptOptions) (error : Option String) (m : InMsg)
    (rest : List (Option InMsg)) (initial : Bool) (st : SessionState)
    (hreg : regHas st.prompts user = false) (hne : m.content ≠ "")
    (hq : quitCheck m.content = true) :
    (message user dbl question options error (some m :: rest) initial st).1 = none ∧
    Effect.notice "Successfully cancelled the prompt!"
      ∈ (message user dbl question options error (some m :: rest) initial st).2.2 :=
  message_quit_run user dbl question options error m rest initial st hreg hq

/-- Witness for C3: the mixed-case prefix `QuI` cancels even though the
allow-list spec would accept exactly that text. -/
theorem quit_prefix_cancels_w :
    (message "u" true "ask" (PromptOptions.list ["QuI"]) none [some ⟨"QuI", false⟩] true
        ⟨[], none⟩).1 = none ∧
    Effect.notice "Successfully cancelled the prompt!"
      ∈ (message "u" true "ask" (PromptOptions.list ["QuI"]) none [some ⟨"QuI", false⟩] true
        ⟨[], none⟩).2.2 :=
  quit_prefix_cancels "u" true "ask" (PromptOptions.list ["QuI"]) none ⟨"QuI", false⟩ [] true
    ⟨[], none⟩ (by decide) (by decide) (by decide)

/-- C9: an input whose text content is the empty string is treated as a
cancellation — the empty string passes the quit-prefix check before any
validation spec is consulted, so no spec can accept or reject it. -/
theorem empty_input_cancels (user : String) (dbl : Bool) (question : String)
    (options : PromptOptions) (error : Option String) (m : InMsg)
    (rest : List (Option InMsg)) (initial : Bool) (st : SessionState)
    (hreg : regHas st.prompts user = false) (hc : m.content = "") :
    (message user dbl question options error (some m :: rest) initial st).1 = none ∧
    Effect.notice "Successfully cancelled the prompt!"
      ∈ (message user dbl question options error (some m :: rest) initial st).2.2 :=
  message_quit_run user dbl question options error m rest initial st hreg
    (by rw [hc]; rfl)

/-- Witness for C9: an empty input cancels even under a pattern spec that
accepts every string. -/
theorem empty_input_cancels_w :
    (message "u" true "ask" (PromptOptions.pattern (fun _ => true)) none
        [some ⟨"", true⟩] true ⟨[], none⟩).1 = none ∧
    Effect.notice "Successfully cancelled the prompt!"
      ∈ (message "u" true "ask" (PromptOptions.pattern (fun _ => true)) none
        [some ⟨"", true⟩] true ⟨[], none⟩).2.2 :=
  empty_input_cancels "u" true "ask" (PromptOptions.pattern (fun _ => true)) none
    ⟨"", true⟩ [] true ⟨[], none⟩ (by decide) rfl

/-- C6: when no input arrives before the deadline, `message` returns no
result, deletes the UI message exactly when it is deletable, sends the
notice `"The prompt timed out!"`, and leaves no registry entry for the
user. -/
theorem timeout_cleanup (user : String) (dbl : Bool) (question : String)
    (options : PromptOptions) (error : Option String) (rest : List (Option InMsg))
    (st : SessionState) (hreg : regHas st.prompts user = false) (hmsg : st.msg = none) :
    (message user dbl question options error (none :: rest) true st).1 = none ∧
    regHas (message user dbl question options error (none :: rest) true st).2.1.prompts user
        = false ∧
    Effect.notice "The prompt timed out!"
      ∈ (message user dbl question options error (none :: rest) true st).2.2 ∧
    (dbl = true →
      Effect.uiDelete ∈ (message user dbl question options error (none :: rest) true st).2.2) ∧
    (dbl = false →
      Effect.uiDelete ∉ (message user dbl question options error (none :: rest) true st).2.2) := by
  have hmem : user ∉ st.prompts := regHas_eq_false.mp hreg
  rw [message_cons_none, if_neg (by rw [hreg]; exact Bool.false_ne_true)]
  simp only
  cases dbl <;>
    simp [sendQuestion, hmsg, timeoutEnd, delete, List.erase_cons_head,
      List.erase_of_not_mem hmem, hreg, regHas_eq_false]

/-- Witness for C6 with a deletable UI message. -/
theorem timeout_cleanup_w :
    (message "u" true "ask" (PromptOptions.list ["a"]) none [none] true ⟨[], none⟩).1
        = none ∧
    regHas (message "u" true "ask" (PromptOptions.list ["a"]) none [none] true
        ⟨[], none⟩).2.1.prompts "u" = false ∧
    Effect.notice "The prompt timed out!"
      ∈ (message "u" true "ask" (PromptOptions.list ["a"]) none [none] true ⟨[], none⟩).2.2 ∧
    (true = true →
      Effect.uiDelete
        ∈ (message "u" true "ask" (PromptOptions.list ["a"]) none [none] true ⟨[], none⟩).2.2) ∧
    (true = false →
      Effect.uiDelete
        ∉ (message "u" true "ask" (PromptOptions.list ["a"]) none [none] true ⟨[], none⟩).2.2) :=
  timeout_cleanup "u" true "ask" (PromptOptions.list ["a"]) none [] ⟨[], none⟩
    (by decide) rfl

/-- C4 counterexample: with the allow-list `["q"]` and the received text
`"q"` the spec accepts the text, yet `message` cancels (quit-prefix priority)
and returns no result instead of returning `"q"`. -/
theorem quit_overrides_acceptance :
    (message "u" false "ask" (PromptOptions.list ["q"]) none [some ⟨"q", false⟩] true
        ⟨[], none⟩).1 = none ∧
    validates (PromptOptions.list ["q"]) "q" = true ∧
    Effect.notice "Successfully cancelled the prompt!"
      ∈ (message "u" false "ask" (PromptOptions.list ["q"]) none [some ⟨"q", false⟩] true
        ⟨[], none⟩).2.2 := by
  refine ⟨rfl, by decide, ?_⟩
  have ht : (message "u" false "ask" (PromptOptions.list ["q"]) none [some ⟨"q", false⟩] true
      ⟨[], none⟩).2.2
      = [Effect.uiSend "ask", Effect.notice "Successfully cancelled the prompt!"] := rfl
  rw [ht]
  simp

/-- C4 (amended): a received input text that is not, case-insensitively, a
prefix of `quit` is accepted exactly when the pattern finds a match in the
text, or the allow-list is empty, or it contains the text; on acceptance the
raw text is returned unchanged and the registry entry is gone. -/
theorem validator_acceptance (user : String) (dbl : Bool) (question : String)
    (options : PromptOptions) (error : Option String) (m : InMsg) (st : SessionState)
    (hreg : regHas st.prompts user = false) (hq : quitCheck m.content = false) :
    ((message user dbl question options error [some m] true st).1 = some m.content ↔
      ((∃ p, options = PromptOptions.pattern p ∧ p m.content = true) ∨
       (∃ l, options = PromptOptions.list l ∧ (l = [] ∨ m.content ∈ l)))) ∧
    regHas (message user dbl question options error [some m] true st).2.1.prompts user
      = false := by
  refine ⟨⟨?_, ?_⟩,
    message_prompts_released user dbl question options error [some m] true st hreg⟩
  · intro h
    exact (validates_iff options m.content).mp
      (message_validated user dbl question options error [some m] true st m.content h)
  · intro h
    have hv : validates options m.content = true := (validates_iff options m.content).mpr h
    rw [message_cons_some, if_neg (by rw [hreg]; exact Bool.false_ne_true)]
    simp only
    rw [if_neg (by rw [hq]; exact Bool.false_ne_true), if_pos hv]

/-- Witness for the amended C4. -/
theorem validator_acceptance_w :
    ((message "u" true "ask" (PromptOptions.list ["a", "b"]) none [some ⟨"b", true⟩] true
        ⟨[], none⟩).1 = some "b" ↔
      ((∃ p, PromptOptions.list ["a", "b"] = PromptOptions.pattern p ∧ p "b" = true) ∨
       (∃ l, PromptOptions.list ["a", "b"] = PromptOptions.list l ∧ (l = [] ∨ "b" ∈ l)))) ∧
    regHas (message "u" true "ask" (PromptOptions.list ["a", "b"]) none [some ⟨"b", true⟩]
        true ⟨[], none⟩).2.1.prompts "u" = false :=
  validator_acceptance "u" true "ask" (PromptOptions.list ["a", "b"]) none ⟨"b", true⟩
    ⟨[], none⟩ (by decide) (by decide)

/-- C2 counterexample: a successful `message` run never attempts to delete
the UI message — it stays in place after resolution, so cleanup is not
attempted on every terminal path. -/
theorem success_leaves_ui_message :
    (message "u" true "ask" (PromptOptions.list []) none [some ⟨"hello", false⟩] true
        ⟨[], none⟩).1 = some "hello" ∧
    Effect.uiDelete ∉ (message "u" true "ask" (PromptOptions.list []) none
        [some ⟨"hello", false⟩] true ⟨[], none⟩).2.2 ∧
    (message "u" true "ask" (PromptOptions.list []) none [some ⟨"hello", false⟩] true
        ⟨[], none⟩).2.1.msg = some ⟨"ask", true⟩ := by
  refine ⟨rfl, ?_, rfl⟩
  have ht : (message "u" true "ask" (PromptOptions.list []) none [some ⟨"hello", false⟩] true
      ⟨[], none⟩).2.2 = [Effect.uiSend "ask"] := rfl
  rw [ht]
  simp

/-- C2 (amended): every terminal path of `message` releases the registry
entry before returning; only the timeout path attempts to delete the
session's UI message (when deletable) — success and cancellation leave it in
place. -/
theorem terminal_paths_release_registry (user : String) (dbl : Bool) (question : String)
    (options : PromptOptions) (error : Option String) (inputs : List (Option InMsg))
    (initial : Bool) (st : SessionState) (hreg : regHas st.prompts user = false) :
    regHas (message user dbl question options error inputs initial st).2.1.prompts user
        = false ∧
    (∀ t, (message user dbl question options error inputs initial st).1 = some t →
      Effect.uiDelete ∉ (message user dbl question options error inputs initial st).2.2) ∧
    (∀ m rest, inputs = some m :: rest → quitCheck m.content = true →
      (message user dbl question options error inputs initial st).1 = none ∧
      Effect.uiDelete ∉ (message user dbl question options error inputs initial st).2.2) ∧
    (∀ rest, inputs = none :: rest → initial = true → st.msg = none → dbl = true →
      (message user dbl question options error inputs initial st).1 = none ∧
      Effect.uiDelete ∈ (message user dbl question options error inputs initial st).2.2) := by
  refine ⟨message_prompts_released user dbl question options error inputs initial st hreg,
    fun t h => message_some_no_uiDelete user dbl question options error inputs initial st t h,
    ?_, ?_⟩
  · rintro m rest rfl hq
    refine ⟨(message_quit_run user dbl question options error m rest initial st hreg hq).1, ?_⟩
    rw [message_cons_some, if_neg (by rw [hreg]; exact Bool.false_ne_true)]
    simp only
    rw [if_pos hq]
    intro hmem
    simp only [List.mem_append] at hmem
    rcases hmem with (hmem | hmem) | hmem
    · exact render_no_uiDelete _ dbl question initial hmem
    · cases hd : m.deletable <;> rw [hd] at hmem <;> simp at hmem
    · simp at hmem
  · rintro rest rfl rfl hmsg rfl
    have hmem : user ∉ st.prompts := regHas_eq_false.mp hreg
    rw [message_cons_none, if_neg (by rw [hreg]; exact Bool.false_ne_true)]
    simp only
    simp [sendQuestion, hmsg, timeoutEnd, delete, List.erase_cons_head,
      List.erase_of_not_mem hmem]

/-- Witness for the amended C2: a cancellation run releasing the registry
and leaving the UI message undeleted. -/
theorem terminal_paths_release_registry_w :
    regHas (message "u" true "ask" (PromptOptions.list []) none [some ⟨"q", false⟩] true
        ⟨[], none⟩).2.1.prompts "u" = false ∧
    (∀ t, (message "u" true "ask" (PromptOptions.list []) none [some ⟨"q", false⟩] true
        ⟨[], none⟩).1 = some t →
      Effect.uiDelete ∉ (message "u" true "ask" (PromptOptions.list []) none
        [some ⟨"q", false⟩] true ⟨[], none⟩).2.2) ∧
    (∀ m rest, ([some ⟨"q", false⟩] : List (Option InMsg)) = some m :: rest →
      quitCheck m.content = true →
      (message "u" true "ask" (PromptOptions.list []) none [some ⟨"q", false⟩] true
        ⟨[], none⟩).1 = none ∧
      Effect.uiDelete ∉ (message "u" true "ask" (PromptOptions.list []) none
        [some ⟨"q", false⟩] true ⟨[], none⟩).2.2) ∧
    (∀ rest, ([some ⟨"q", false⟩] : List (Option InMsg)) = none :: rest → true = true →
      (⟨[], none⟩ : SessionState).msg = none → true = true →
      (message "u" true "ask" (PromptOptions.list []) none [some ⟨"q", false⟩] true
        ⟨[], none⟩).1 = none ∧
      Effect.uiDelete ∈ (message "u" true "ask" (PromptOptions.list []) none
        [some ⟨"q", false⟩] true ⟨[], none⟩).2.2) :=
  terminal_paths_release_registry "u" true "ask" (PromptOptions.list []) none
    [some ⟨"q", false⟩] true ⟨[], none⟩ (by decide)

/-- C5: for a session that has not yet rendered (fresh initial call), the
whole run sends at most one fresh UI message; a rejected first input
re-renders by editing the UI message with the error line (custom template
with the VALUE placeholder substituted, else the default) placed before the
original question; and a validation failure is never returned — any resolved
value passed validation. -/
theorem retry_rerenders_in_place (user : String) (dbl : Bool) (question : String)
    (options : PromptOptions) (error : Option String) (inputs : List (Option InMsg))
    (st : SessionState) (hreg : regHas st.prompts user = false) (hmsg : st.msg = none) :
    List.countP Effect.isUiSend
        (message user dbl question options error inputs true st).2.2 ≤ 1 ∧
    (∀ t, (message user dbl question options error inputs true st).1 = some t →
      validates options t = true) ∧
    (∀ m rest, inputs = some m :: rest → quitCheck m.content = false →
      validates options m.content = false →
      Effect.uiEdit (errLine error m.content ++ "\n\n" ++ question)
        ∈ (message user dbl question options error inputs true st).2.2) := by
  refine ⟨message_countP_le user dbl question options error inputs true st,
    fun t h => message_validated user dbl question options error inputs true st t h, ?_⟩
  rintro m rest rfl hq hv
  rw [message_cons_some, if_neg (by rw [hreg]; exact Bool.false_ne_true)]
  simp only
  rw [if_neg (by rw [hq]; exact Bool.false_ne_true), if_neg (by rw [hv]; exact Bool.false_ne_true)]
  simp [sendQuestion, hmsg, List.mem_append]

/-- `chooseResult` on a rendered in-range index string reads the option. -/
theorem chooseResult_natToDec {T : Type} (choices : List T) (i : Nat) (hi : 1 ≤ i) :
    chooseResult choices (some (natToDec i)) = choices.get? (i - 1) := by
  show (if natToDec i = "" then none else chooseIndex choices (natToDec i))
      = choices.get? (i - 1)
  rw [if_neg (natToDec_ne_empty i), chooseIndex_natToDec choices i hi]

/-- The result of `chooseOne` is the post-processed result of the delegated
`message` call on the rendered question and the 1-based index allow-list. -/
theorem chooseOne_fst {T : Type} (toStr : T → String) (user : String) (dbl : Bool)
    (question : String) (choices : List T) (inputs : List (Option InMsg))
    (st : SessionState) :
    (chooseOne toStr user dbl question choices inputs st).1
      = chooseResult choices
          (message user dbl
            (question ++ toCodeblock (String.intercalate "\n"
              (choices.enum.map (fun p => natToDec (p.1 + 1) ++ " | " ++ toStr p.2))) "css")
            (PromptOptions.list (choices.enum.map (fun p => natToDec (p.1 + 1))))
            (some chooseErr) inputs true st).1 := rfl

/-- C7 counterexample: with an empty choice list the empty allow-list makes
the underlying prompt accept any text, e.g. `"hello"`, yet `chooseOne`
returns no result — so "no result exactly when the underlying prompt yields
no result" fails for the empty list. -/
theorem chooseOne_empty_list_drops_result :
    (chooseOne (fun s => s) "u" true "ask" ([] : List String) [some ⟨"hello", false⟩]
        ⟨[], none⟩).1 = none ∧
    (message "u" true
        ("ask" ++ toCodeblock (String.intercalate "\n"
          (([] : List String).enum.map (fun p => natToDec (p.1 + 1) ++ " | " ++ p.2))) "css")
        (PromptOptions.list (([] : List String).enum.map (fun p => natToDec (p.1 + 1))))
        (some chooseErr) [some ⟨"hello", false⟩] true ⟨[], none⟩).1 = some "hello" :=
  ⟨rfl, rfl⟩

/-- C7 (amended): `chooseOne` renders the 1-based `i | choice` lines and
delegates to `message` with the allow-list `"1".."N"`; typing the string of
an in-range index `i` returns the original option `choices[i-1]`; and for a
non-empty choice list it returns no result exactly when the underlying
prompt yields no result (cancel or timeout). -/
theorem chooseOne_behavior {T : Type} (toStr : T → String) (user : String) (dbl : Bool)
    (question : String) (choices : List T) (st : SessionState)
    (hreg : regHas st.prompts user = false) (hne : choices ≠ []) :
    (∀ (i : Nat) (d : Bool), 1 ≤ i → i ≤ choices.length →
      (chooseOne toStr user dbl question choices [some ⟨natToDec i, d⟩] st).1
          = choices.get? (i - 1) ∧
      (choices.get? (i - 1)).isSome = true) ∧
    (∀ inputs : List (Option InMsg),
      ((chooseOne toStr user dbl question choices inputs st).1 = none ↔
        (message user dbl
          (question ++ toCodeblock (String.intercalate "\n"
            (choices.enum.map (fun p => natToDec (p.1 + 1) ++ " | " ++ toStr p.2))) "css")
          (PromptOptions.list (choices.enum.map (fun p => natToDec (p.1 + 1))))
          (some chooseErr) inputs true st).1 = none)) := by
  constructor
  · intro i d h1 h2
    have hq : quitCheck (natToDec i) = false := quitCheck_natToDec i
    have hv : validates
        (PromptOptions.list (choices.enum.map (fun p => natToDec (p.1 + 1))))
        (natToDec i) = true :=
      (validates_iff _ _).mpr
        (Or.inr ⟨_, rfl, Or.inr (natToDec_mem_allow choices i h1 h2)⟩)
    have hrun : (message user dbl
        (question ++ toCodeblock (String.intercalate "\n"
          (choices.enum.map (fun p => natToDec (p.1 + 1) ++ " | " ++ toStr p.2))) "css")
        (PromptOptions.list (choices.enum.map (fun p => natToDec (p.1 + 1))))
        (some chooseErr) [some ⟨natToDec i, d⟩] true st).1 = some (natToDec i) := by
      rw [message_cons_some, if_neg (by rw [hreg]; exact Bool.false_ne_true)]
      simp only
      rw [if_neg (by rw [hq]; exact Bool.false_ne_true), if_pos hv]
    refine ⟨?_, ?_⟩
    · rw [chooseOne_fst, hrun, chooseResult_natToDec choices i h1]
    · rw [List.get?_eq_get (by omega : i - 1 < choices.length)]
      rfl
  · intro inputs
    rw [chooseOne_fst]
    cases hr : (message user dbl
        (question ++ toCodeblock (String.intercalate "\n"
          (choices.enum.map (fun p => natToDec (p.1 + 1) ++ " | " ++ toStr p.2))) "css")
        (PromptOptions.list (choices.enum.map (fun p => natToDec (p.1 + 1))))
        (some chooseErr) inputs true st).1 with
    | none => simp [chooseResult]
    | some c =>
      have hval := message_validated user dbl
        (question ++ toCodeblock (String.intercalate "\n"
          (choices.enum.map (fun p => natToDec (p.1 + 1) ++ " | " ++ toStr p.2))) "css")
        (PromptOptions.list (choices.enum.map (fun p => natToDec (p.1 + 1))))
        (some chooseErr) inputs true st c hr
      have hcmem : c ∈ choices.enum.map (fun p => natToDec (p.1 + 1)) := by
        rcases (validates_iff _ _).mp hval with ⟨p, hp, _⟩ | ⟨l, hl, hmem⟩
        · exact PromptOptions.noConfusion hp
        · cases hl
          rcases hmem with hmem | hmem
          · exfalso
            apply hne
            have hlen : (choices.enum.map (fun p => natToDec (p.1 + 1))).length
                = choices.length := by
              rw [List.length_map, List.enum_length]
            rw [hmem] at hlen
            exact List.length_eq_zero.mp hlen.symm
          · exact hmem
      obtain ⟨j, hj, rfl⟩ := mem_allow_exists choices c hcmem
      rw [chooseResult_natToDec choices (j + 1) (by omega)]
      simp only [Nat.add_sub_cancel]
      rw [List.get?_eq_get hj]
      simp

/-- Witness for the amended C7: typing `"2"` on `["A", "B", "C"]` yields the
original option `"B"`. -/
theorem chooseOne_behavior_w :
    (chooseOne (fun s => s) "u" true "ask" ["A", "B", "C"] [some ⟨natToDec 2, false⟩]
        ⟨[], none⟩).1 = (["A", "B", "C"] : List String).get? 1 ∧
    ((["A", "B", "C"] : List String).get? 1).isSome = true :=
  (chooseOne_behavior (fun s => s) "u" true "ask" ["A", "B", "C"] ⟨[], none⟩ (by decide)
      (by decide)).1 2 false (by decide) (by decide)

/-- C8 counterexample: a custom emoji whose id matches the pattern but whose
name does not is rejected by `reaction` — the pattern is tested against the
name, not against the stable identity. -/
theorem reaction_pattern_uses_name :
    (reaction "u" true "ask" (PromptOptions.pattern (fun s => decide (s = "12345"))) false
        none [some ⟨some "12345", "thumb"⟩] true ⟨[], none⟩).1 = none ∧
    (fun s => decide (s = "12345")) (emojiIdentity ⟨some "12345", "thumb"⟩) = true ∧
    reactionCheck (PromptOptions.pattern (fun s => decide (s = "12345")))
        ⟨some "12345", "thumb"⟩ = false :=
  ⟨rfl, rfl, rfl⟩

/-- C8 (amended): a received reaction resolves (with the emoji object
itself) exactly when the pattern spec accepts the emoji's name, or the
allow-list spec is empty or contains the emoji's stable identity (custom id
when present, else name). -/
theorem reaction_validation (user : String) (dbl : Bool) (question : String)
    (options : PromptOptions) (react : Bool) (error : Option String) (e : Emoji)
    (st : SessionState) (hreg : regHas st.prompts user = false) :
    (reaction user dbl question options react error [some e] true st).1 = some e ↔
      ((∃ p, options = PromptOptions.pattern p ∧ p e.name = true) ∨
       (∃ l, options = PromptOptions.list l ∧ (l = [] ∨ emojiIdentity e ∈ l))) := by
  rw [← reactionCheck_iff]
  rw [reaction_cons_some, if_neg (by rw [hreg]; exact Bool.false_ne_true)]
  simp only
  by_cases hc : reactionCheck options e = true
  · rw [if_pos hc]
    simp [hc]
  · rw [if_neg hc]
    simp only
    rw [reaction_nil]
    cases hm : st.msg with
    | none => simp [sendQuestion, hm, List.erase_cons_head, hreg, hc]
    | some m => simp [sendQuestion, hm, List.erase_cons_head, hreg, hc]

/-- Witness for the amended C8: a custom emoji accepted through its id in an
allow-list resolves with the emoji object. -/
theorem reaction_validation_w :
    (reaction "u" true "ask" (PromptOptions.list ["123"]) true none
        [some ⟨some "123", "check"⟩] true ⟨[], none⟩).1 = some ⟨some "123", "check"⟩ ↔
      ((∃ p, PromptOptions.list ["123"] = PromptOptions.pattern p ∧
          p (Emoji.name ⟨some "123", "check"⟩) = true) ∨
       (∃ l, PromptOptions.list ["123"] = PromptOptions.list l ∧
          (l = [] ∨ emojiIdentity ⟨some "123", "check"⟩ ∈ l))) :=
  reaction_validation "u" true "ask" (PromptOptions.list ["123"]) true none
    ⟨some "123", "check"⟩ ⟨[], none⟩ (by decide)

/-- C10 counterexample: the argument `"2abc"` is not (the decimal numeral
of) any integer in 1..10, yet it selects page index 1, not 0, because
`parseInt` parses the leading digits. -/
theorem troubleshoot_partial_parse :
    initialPage (some "2abc") = 1 ∧ (1 : Nat) ≠ 0 ∧
    (∀ n, n ≤ 10 → 1 ≤ n → natToDec n ≠ "2abc") :=
  ⟨rfl, by decide, by decide⟩

/-- C10 (amended): the troubleshoot page index always stays in `[0, 9]`
over the 10 pages: an argument whose `parseInt` value is not an integer in
1..10 selects index 0 (`parseInt` skips whitespace, honours a sign and a
hexadecimal `0x`/`0X` prefix, and ignores trailing garbage, so `"2abc"`
selects page index 1 and `"0x5"` page index 4); thereafter the rewind emoji
sets the index to 0, the fast-forward emoji sets it to the last page, the
left arrow decrements only when the index is positive, the right arrow
increments only when the index is not the last page, and any other emoji
leaves it unchanged. -/
theorem troubleshoot_page_bounds :
    troubleshootPages.length = 10 ∧
    (∀ a, initialPage a ≤ 9) ∧
    (∀ a, (∀ n : Int, a.bind jsParseInt = some n → (n < 1 ∨ 10 < n)) → initialPage a = 0) ∧
    (∀ p e, p ≤ 9 → troubleshootStep p e ≤ 9) ∧
    (∀ p, troubleshootStep p "⏪" = 0) ∧
    (∀ p, p ≤ 9 → troubleshootStep p "⏩" = 9) ∧
    (∀ p, troubleshootStep p "⬅️" = if p = 0 then p else p - 1) ∧
    (∀ p, p ≤ 9 → troubleshootStep p "➡️" = if p = 9 then p else p + 1) ∧
    (∀ p e, e ≠ "⏪" → e ≠ "⬅️" → e ≠ "➡️" → e ≠ "⏩" → troubleshootStep p e = p) := by
  have hL : troubleshootPages.length = 10 := rfl
  have hLi : (troubleshootPages.length : Int) = 10 := rfl
  refine ⟨hL, ?_, ?_, ?_, ?_, ?_, ?_, ?_, ?_⟩
  · intro a
    cases hp : a.bind jsParseInt with
    | none => simp [initialPage, hp]
    | some n =>
      simp only [initialPage, hp, hLi]
      by_cases hn : n > 10 ∨ n ≤ 0
      · rw [if_pos hn]
        simp
      · rw [if_neg hn]
        rw [if_neg (by omega)]
        omega
  · intro a h
    cases hp : a.bind jsParseInt with
    | none => simp [initialPage, hp]
    | some n =>
      have hn : n > 10 ∨ n ≤ 0 := by
        rcases h n hp with h1 | h1
        · exact Or.inr (by omega)
        · exact Or.inl (by omega)
      simp only [initialPage, hp, hLi]
      rw [if_pos hn]
      simp
  · intro p e hp
    unfold troubleshootStep
    simp only [hL]
    by_cases h1 : e = "⏪"
    · rw [if_pos h1]
      split <;> omega
    · rw [if_neg h1]
      by_cases h2 : e = "⬅️"
      · rw [if_pos h2]
        split <;> omega
      · rw [if_neg h2]
        by_cases h3 : e = "➡️"
        · rw [if_pos h3]
          split <;> omega
        · rw [if_neg h3]
          by_cases h4 : e = "⏩"
          · rw [if_pos h4]
            split <;> omega
          · rw [if_neg h4]
            exact hp
  · intro p
    unfold troubleshootStep
    rw [if_pos rfl]
    split <;> omega
  · intro p hp
    unfold troubleshootStep
    rw [if_neg (by decide : ¬("⏩" : String) = "⏪"), if_neg (by decide : ¬("⏩" : String) = "⬅️"),
      if_neg (by decide : ¬("⏩" : String) = "➡️"), if_pos rfl]
    simp only [hL]
    split <;> omega
  · intro p
    unfold troubleshootStep
    rw [if_neg (by decide : ¬("⬅️" : String) = "⏪"), if_pos rfl]
  · intro p hp
    unfold troubleshootStep
    rw [if_neg (by decide : ¬("➡️" : String) = "⏪"),
      if_neg (by decide : ¬("➡️" : String) = "⬅️"), if_pos rfl]
    simp only [hL]
    by_cases h9 : p = 9
    · subst h9
      rw [if_pos rfl, if_pos rfl]
    · rw [if_neg (by omega), if_neg h9]
  · intro p e h1 h2 h3 h4
    unfold troubleshootStep
    rw [if_neg h1, if_neg h2, if_neg h3, if_neg h4]

/-- Witness for the amended C10 at concrete pages and emojis. -/
theorem troubleshoot_page_bounds_w :
    troubleshootPages.length = 10 ∧
    initialPage (some "11") = 0 ∧ initialPage (some "7") ≤ 9 ∧
    troubleshootStep 4 "⏪" = 0 ∧ troubleshootStep 4 "⏩" = 9 ∧
    troubleshootStep 4 "⬅️" = (if (4 : Nat) = 0 then 4 else 3) ∧
    troubleshootStep 4 "➡️" = (if (4 : Nat) = 9 then 4 else 5) ∧
    troubleshootStep 4 "🙂" = 4 := by
  have h := troubleshoot_page_bounds
  refine ⟨h.1, ?_, h.2.1 (some "7"), h.2.2.2.2.1 4, h.2.2.2.2.2.1 4 (by decide), ?_, ?_, ?_⟩
  · refine h.2.2.1 (some "11") ?_
    intro n hn
    have h11 : (some "11").bind jsParseInt = some (11 : Int) := rfl
    rw [h11] at hn
    injection hn with hn
    right
    omega
  · exact h.2.2.2.2.2.2.1 4
  · exact h.2.2.2.2.2.2.2.1 4 (by decide)
  · exact h.2.2.2.2.2.2.2.2 4 "🙂" (by decide) (by decide) (by decide) (by decide)

/-- Witness for C5: a rejected `"no"` followed by the valid `"ok"` on the
allow-list `["ok"]`. -/
theorem retry_rerenders_in_place_w :
    List.countP Effect.isUiSend
        (message "u" true "ask" (PromptOptions.list ["ok"]) none
          [some ⟨"no", false⟩, some ⟨"ok", false⟩] true ⟨[], none⟩).2.2 ≤ 1 ∧
    (∀ t, (message "u" true "ask" (PromptOptions.list ["ok"]) none
          [some ⟨"no", false⟩, some ⟨"ok", false⟩] true ⟨[], none⟩).1 = some t →
      validates (PromptOptions.list ["ok"]) t = true) ∧
    (∀ m rest, ([some ⟨"no", false⟩, some ⟨"ok", false⟩] : List (Option InMsg))
        = some m :: rest →
      quitCheck m.content = false →
      validates (PromptOptions.list ["ok"]) m.content = false →
      Effect.uiEdit (errLine none m.content ++ "\n\n" ++ "ask")
        ∈ (message "u" true "ask" (PromptOptions.list ["ok"]) none
          [some ⟨"no", false⟩, some ⟨"ok", false⟩] true ⟨[], none⟩).2.2) :=
  retry_rerenders_in_place "u" true "ask" (PromptOptions.list ["ok"]) none
    [some ⟨"no", false⟩, some ⟨"ok", false⟩] ⟨[], none⟩ (by decide) rfl
